import Mathlib

/-!
Shallow embedding of the orchestration and debounced-scheduling subsystem of
the zino daemon bootstrap (src/zino/zino.py) and its SNMP query helpers
(src/zino/snmp.py), together with theorems settling the specification claims.

Times are modelled as integer seconds; datetimes become `Int`, a `timedelta`
of ten seconds becomes the integer 10.
-/

namespace Zino

/-- `MINIMUM_STATE_DUMP_INTERVAL = timedelta(seconds=10)` from zino.py,
modelled in integer seconds. -/
def MINIMUM_STATE_DUMP_INTERVAL : Int := 10

/-- Embedding of `reschedule_dump_state` from zino.py.  The function reads the
persistence job's `next_run_time`, computes `next_run = now + MINIMUM_STATE_DUMP_INTERVAL`,
and rewrites the job's next run time to `next_run` exactly when the current
value is strictly later.  The scheduler lookup and log call carry no state
relevant to the job time, so the embedding is a function from the current
clock value and the job's current next-run-time to the job's new
next-run-time. -/
def reschedule_dump_state (now next_run_time : Int) : Int :=
  let next_run := now + MINIMUM_STATE_DUMP_INTERVAL
  if next_run_time > next_run then next_run else next_run_time

/-! ### Privilege drop: `switch_to_user` from zino.py

The operating-system interface (`os.getuid`, `pwd.getpwnam`, `grp.getgrall`,
the identity-changing syscalls and their possible `OSError`s) is modelled as
an explicit environment; the function's observable behaviour is its boolean
return value together with the ordered trace of identity-changing syscalls it
attempted. -/

/-- An identity-changing syscall attempted by `switch_to_user` (reads such as
`os.getuid` are not identity-changing and are not traced). -/
inductive Syscall where
  | setgid (gid : Nat)
  | setgroups (gids : List Nat)
  | setuid (uid : Nat)
deriving DecidableEq, Repr

/-- A `pwd` database entry, with the fields `switch_to_user` reads. -/
structure PwEntry where
  pw_uid : Nat
  pw_gid : Nat
deriving DecidableEq, Repr

/-- A `grp` database entry, with the fields `switch_to_user` reads. -/
structure GrEntry where
  gr_gid : Nat
  gr_mem : List String
deriving DecidableEq, Repr

/-- The process/OS environment `switch_to_user` runs against: current
identity, the user and group databases, and which of the three
identity-changing syscalls would raise `OSError`. -/
structure OSEnv where
  uid : Nat
  gid : Nat
  pwdb : String → Option PwEntry
  getgrall : List GrEntry
  setgidFails : Bool
  setgroupsFails : Bool
  setuidFails : Bool

/-- `gids = [g.gr_gid for g in grp.getgrall() if username in g.gr_mem]`
from `switch_to_user`. -/
def supplementaryGids (env : OSEnv) (username : String) : List Nat :=
  (env.getgrall.filter (fun g => username ∈ g.gr_mem)).map (fun g => g.gr_gid)

/-- Embedding of `switch_to_user` from zino.py.  Returns the function's
boolean result paired with the ordered trace of identity-changing syscalls it
attempted.  A syscall whose corresponding failure flag is set raises
`OSError` after being attempted, so it appears in the trace and the function
returns `false` without attempting anything further. -/
def switch_to_user (env : OSEnv) (username : String) : Bool × List Syscall :=
  match env.pwdb username with
  | none => (false, [])
  | some user =>
    if env.uid = user.pw_uid then
      (true, [])
    else if env.setgidFails then
      (false, [Syscall.setgid user.pw_gid])
    else
      if (supplementaryGids env username).isEmpty then
        if env.setuidFails then
          (false, [Syscall.setgid user.pw_gid, Syscall.setuid user.pw_uid])
        else
          (true, [Syscall.setgid user.pw_gid, Syscall.setuid user.pw_uid])
      else if env.setgroupsFails then
        (false, [Syscall.setgid user.pw_gid,
                 Syscall.setgroups (supplementaryGids env username)])
      else if env.setuidFails then
        (false, [Syscall.setgid user.pw_gid,
                 Syscall.setgroups (supplementaryGids env username),
                 Syscall.setuid user.pw_uid])
      else
        (true, [Syscall.setgid user.pw_gid,
                Syscall.setgroups (supplementaryGids env username),
                Syscall.setuid user.pw_uid])

/-- Whether a syscall trace contains a `setgroups` call. -/
def hasSetgroups : List Syscall → Bool
  | [] => false
  | Syscall.setgroups _ :: _ => true
  | _ :: rest => hasSetgroups rest

/-- An environment in which the process runs as root, the user `joe`
resolves to uid/gid 1000/1000, no group's membership list contains `joe`,
and every syscall succeeds. -/
def noGroupsEnv : OSEnv where
  uid := 0
  gid := 0
  pwdb := fun u => if u = "joe" then some ⟨1000, 1000⟩ else none
  getgrall := []
  setgidFails := false
  setgroupsFails := false
  setuidFails := false

/-! ### Configuration loading: `load_config` from zino.py

`read_configuration` is an external collaborator; its four possible outcomes
(success, `OSError` for a missing/unreadable file, `InvalidConfigurationError`
for invalid TOML, pydantic `ValidationError`) are modelled as an oracle
value.  `load_config` either returns an optional configuration or terminates
the process via `sys.exit` after a fatal log. -/

/-- The outcome of `read_configuration(args.config_file or DEFAULT_CONFIG_FILE,
args.polldevs)`: the configuration itself is opaque to `load_config`, so it
is modelled as an abstract `Nat` token. -/
inductive ReadResult where
  | ok (config : Nat)
  | osError
  | invalidConfigurationError
  | validationError
deriving DecidableEq, Repr

/-- What `load_config` does: terminate the process with an exit code (after a
fatal log), or return an optional configuration to `main`. -/
inductive LoadOutcome where
  | exited (code : Nat)
  | returned (config : Option Nat)
deriving DecidableEq, Repr

/-- Embedding of `load_config` from zino.py.  `config_file` is
`args.config_file` (`none` when the flag was not given, in which case
`DEFAULT_CONFIG_FILE` is used for the read); `read` is the outcome of the
`read_configuration` call.  On `OSError` the process exits with code 1 only
when an explicit config file was named; otherwise the exception is swallowed
and the function falls through, returning `None`. -/
def load_config (config_file : Option String) (read : ReadResult) : LoadOutcome :=
  match read with
  | ReadResult.ok config => LoadOutcome.returned (some config)
  | ReadResult.osError =>
    match config_file with
    | some _ => LoadOutcome.exited 1
    | none => LoadOutcome.returned none
  | ReadResult.invalidConfigurationError => LoadOutcome.exited 1
  | ReadResult.validationError => LoadOutcome.exited 1

/-! ### SNMP helpers: snmp.py

Engine handles, OIDs and values are opaque library objects; they are
modelled as `Nat` tokens.  Object identity of engine handles is modelled by
allocating each newly constructed `SnmpEngine()` a fresh token from a
counter, so two handles are "the same object" exactly when their tokens are
equal. -/

/-- The fields of a `PollDevice` that snmp.py reads. -/
structure PollDevice where
  address : String
  port : Nat
  community : String
  hcounters : Bool
deriving DecidableEq, Repr

/-- Embedding of `SNMP.mp_model` from snmp.py: the preferred SNMP version of
a device as a PySNMP mpModel value (`1` = v2c with high-capacity counters,
`0` = v1). -/
def SNMP.mp_model (device : PollDevice) : Nat :=
  if device.hcounters then 1 else 0

/-- The state behind `_local = threading.local()` in snmp.py: each thread's
optional `snmp_engine` attribute (threads are identified by `Nat` ids),
together with the allocation counter that models construction of fresh
`SnmpEngine()` objects. -/
structure ThreadLocalEngines where
  snmp_engine : Nat → Option Nat
  nextEngine : Nat

/-- Embedding of `_get_engine` from snmp.py, for the calling thread
`thread`: if the thread-local `snmp_engine` attribute is unset, construct a
fresh engine, store it in the calling thread's slot and return it; otherwise
return the stored engine unchanged. -/
def _get_engine (thread : Nat) (s : ThreadLocalEngines) : Nat × ThreadLocalEngines :=
  match s.snmp_engine thread with
  | some e => (e, s)
  | none =>
    (s.nextEngine,
     { snmp_engine := fun t => if t = thread then some s.nextEngine else s.snmp_engine t,
       nextEngine := s.nextEngine + 1 })

/-- Well-formedness of the engine cache: every stored engine token was
allocated (is below the counter), and no token is stored in two different
threads' slots.  This holds for the initial empty cache and is preserved by
`_get_engine`. -/
def EngineCacheWF (s : ThreadLocalEngines) : Prop :=
  (∀ t e, s.snmp_engine t = some e → e < s.nextEngine)
  ∧ (∀ t₁ t₂ e, s.snmp_engine t₁ = some e → s.snmp_engine t₂ = some e → t₁ = t₂)

/-- The empty thread-local state: no thread has an engine yet. -/
def emptyEngines : ThreadLocalEngines where
  snmp_engine := fun _ => none
  nextEngine := 0

/-- The quadruple returned by PySNMP's `getCmd` coroutine, as consumed by
`SNMP.get`: `errorIndication` (transport-level failure message),
`errorStatus` (`0` meaning no error), `errorIndex`, and the variable
bindings, each an (object, value) pair. -/
structure GetCmdResponse where
  error_indication : Option String
  error_status : Nat
  error_index : Nat
  var_binds : List (Nat × Nat)
deriving DecidableEq, Repr

/-- The diagnostic logged by `SNMP.get` on an error outcome: either the
transport error indication, or the protocol error status together with the
culprit object (`none` standing for the `"?"` placeholder when the error
index is not determinable). -/
inductive GetLog where
  | indication (msg : String)
  | statusAt (error_status : Nat) (culprit : Option Nat)
deriving DecidableEq, Repr

/-- Embedding of `SNMP.get` from snmp.py for a single requested object,
parameterised by the response the `getCmd` exchange produced.  The result is
`Except.error ()` when the Python code raises (the uncaught `IndexError`
from `query[int(error_index) - 1]`), and otherwise the returned optional
value paired with the diagnostic logged, if any:

* an error indication is logged and `None` returned;
* otherwise a nonzero error status is logged together with
  `error_index and query[int(error_index) - 1][0] or "?"` — the culprit
  object when `error_index` is a valid 1-based index into the singleton
  query list, the `"?"` placeholder when `error_index` is zero, and an
  `IndexError` when `error_index` exceeds the list length — and `None`
  returned;
* otherwise the value of the first variable binding is returned (`None`
  when there are no bindings). -/
def SNMP.get (object : Nat) (r : GetCmdResponse) : Except Unit (Option Nat × Option GetLog) :=
  let query : List Nat := [object]
  match r.error_indication with
  | some msg => Except.ok (none, some (GetLog.indication msg))
  | none =>
    if r.error_status ≠ 0 then
      if r.error_index = 0 then
        Except.ok (none, some (GetLog.statusAt r.error_status none))
      else if h : r.error_index - 1 < query.length then
        Except.ok (none, some (GetLog.statusAt r.error_status
          (some (query.get ⟨r.error_index - 1, h⟩))))
      else
        Except.error ()
    else
      Except.ok (r.var_binds.head?.map Prod.snd, none)

end Zino

/-- Claim C1: for every invocation of `reschedule_dump_state` with
`candidate = now + MINIMUM_STATE_DUMP_INTERVAL`: a next-run-time strictly
later than `candidate` is rewritten to exactly `candidate`; a next-run-time
at or before `candidate` is left unchanged; hence the reschedule never sets
the next-run-time earlier than `candidate` and never moves it later than its
current value. -/
theorem Zino.reschedule_dump_state_debounce_spec (now next_run_time : Int) :
    (next_run_time > now + Zino.MINIMUM_STATE_DUMP_INTERVAL →
      Zino.reschedule_dump_state now next_run_time = now + Zino.MINIMUM_STATE_DUMP_INTERVAL)
  ∧ (next_run_time ≤ now + Zino.MINIMUM_STATE_DUMP_INTERVAL →
      Zino.reschedule_dump_state now next_run_time = next_run_time)
  ∧ (Zino.reschedule_dump_state now next_run_time ≠ next_run_time →
      Zino.reschedule_dump_state now next_run_time = now + Zino.MINIMUM_STATE_DUMP_INTERVAL)
  ∧ Zino.reschedule_dump_state now next_run_time ≤ next_run_time := by
  unfold Zino.reschedule_dump_state
  dsimp only
  split <;> refine ⟨fun h => ?_, fun h => ?_, fun h => ?_, ?_⟩ <;> omega

/-- Witness for C1 at concrete inputs: with `now = 0` a job scheduled at 60 is
pulled to 10, and a job scheduled at 5 is left alone. -/
theorem Zino.reschedule_dump_state_debounce_spec_witness :
    Zino.reschedule_dump_state 0 60 = 0 + Zino.MINIMUM_STATE_DUMP_INTERVAL
  ∧ Zino.reschedule_dump_state 0 5 = 5 :=
  ⟨(Zino.reschedule_dump_state_debounce_spec 0 60).1 (by decide),
   (Zino.reschedule_dump_state_debounce_spec 0 5).2.1 (by decide)⟩

/-- Claim C2: with `MINIMUM_STATE_DUMP_INTERVAL` equal to ten seconds and the
persistence job initially scheduled at t = 60 s, reschedule invocations at
t = 0 s, 2 s and 4 s leave the final next-run-time at t = 10 s: the first
invocation pulls the dump to 10 and the later two change nothing. -/
theorem Zino.reschedule_dump_state_burst_scenario :
    Zino.MINIMUM_STATE_DUMP_INTERVAL = 10
  ∧ Zino.reschedule_dump_state 0 60 = 10
  ∧ Zino.reschedule_dump_state 2 (Zino.reschedule_dump_state 0 60) = 10
  ∧ Zino.reschedule_dump_state 4
      (Zino.reschedule_dump_state 2 (Zino.reschedule_dump_state 0 60)) = 10 := by
  refine ⟨rfl, ?_, ?_, ?_⟩ <;> decide

/-- Claim C3 counterexample: in an environment where the user `joe` resolves
to uid 1000 (different from the current uid 0) but no group's membership list
contains `joe`, `switch_to_user` changes identity (its trace ends in a
successful `setuid`) without ever calling `setgroups`: the claim that both
group operations happen on every identity-changing call is false. -/
theorem Zino.switch_to_user_no_setgroups_counterexample :
    Zino.switch_to_user Zino.noGroupsEnv "joe"
      = (true, [Zino.Syscall.setgid 1000, Zino.Syscall.setuid 1000])
  ∧ Zino.hasSetgroups (Zino.switch_to_user Zino.noGroupsEnv "joe").2 = false
  ∧ Zino.noGroupsEnv.pwdb "joe" = some ⟨1000, 1000⟩
  ∧ Zino.noGroupsEnv.uid ≠ 1000 := by
  refine ⟨by decide, by decide, by decide, by decide⟩

/-- Claim C3 (amended): whenever `switch_to_user` proceeds to change identity
(the username resolves and the target uid differs from the current uid), its
syscall trace starts with `setgid` of the user's primary group, and whenever
`setuid` is attempted it is the last syscall, strictly preceded by the
`setgid` call and — when the set of groups whose membership list contains the
username is nonempty — by a `setgroups` call with exactly that set.
(`setgroups` is skipped entirely when that set is empty.) -/
theorem Zino.switch_to_user_group_ops_before_setuid
    (env : Zino.OSEnv) (username : String) (user : Zino.PwEntry)
    (hres : env.pwdb username = some user) (hneq : env.uid ≠ user.pw_uid) :
    (Zino.switch_to_user env username).2.head? = some (Zino.Syscall.setgid user.pw_gid)
  ∧ (Zino.Syscall.setuid user.pw_uid ∈ (Zino.switch_to_user env username).2 →
      ∃ t, (Zino.switch_to_user env username).2 = t ++ [Zino.Syscall.setuid user.pw_uid]
        ∧ Zino.Syscall.setgid user.pw_gid ∈ t
        ∧ (Zino.supplementaryGids env username ≠ [] →
            Zino.Syscall.setgroups (Zino.supplementaryGids env username) ∈ t)) := by
  unfold Zino.switch_to_user
  rw [hres]
  dsimp only
  rw [if_neg hneq]
  by_cases h1 : env.setgidFails = true
  · simp [h1]
  · rw [Bool.not_eq_true] at h1
    rw [h1]
    simp only [Bool.false_eq_true, if_false]
    by_cases h2 : (Zino.supplementaryGids env username).isEmpty = true
    · have hnil : Zino.supplementaryGids env username = [] := by
        rwa [List.isEmpty_iff] at h2
      rw [if_pos h2]
      by_cases h4 : env.setuidFails = true <;> [rw [if_pos h4]; rw [if_neg h4]] <;>
        exact ⟨rfl, fun _ => ⟨[Zino.Syscall.setgid user.pw_gid], rfl, by simp,
          fun hne => absurd hnil hne⟩⟩
    · rw [Bool.not_eq_true] at h2
      rw [h2]
      simp only [Bool.false_eq_true, if_false]
      by_cases h3 : env.setgroupsFails = true
      · rw [h3]
        simp only [if_true]
        refine ⟨rfl, fun hmem => absurd hmem (by simp)⟩
      · rw [Bool.not_eq_true] at h3
        rw [h3]
        simp only [Bool.false_eq_true, if_false]
        by_cases h4 : env.setuidFails = true <;>
          [rw [h4]; (rw [Bool.not_eq_true] at h4; rw [h4])] <;>
          simp only [if_true, Bool.false_eq_true, if_false] <;>
          exact ⟨rfl, fun _ => ⟨[Zino.Syscall.setgid user.pw_gid,
            Zino.Syscall.setgroups (Zino.supplementaryGids env username)],
            rfl, by simp, fun _ => by simp⟩⟩

/-- Witness for the amended claim C3, at a concrete environment where the
user `joe` belongs to one supplementary group: the trace starts with
`setgid 1000`, and `setuid 1000` is last, preceded by both group
operations. -/
theorem Zino.switch_to_user_group_ops_before_setuid_witness :
    ({ Zino.noGroupsEnv with getgrall := [⟨4, ["joe"]⟩] } : Zino.OSEnv).pwdb "joe"
        = some ⟨1000, 1000⟩
  ∧ (Zino.switch_to_user { Zino.noGroupsEnv with getgrall := [⟨4, ["joe"]⟩] } "joe").2.head?
        = some (Zino.Syscall.setgid 1000) :=
  ⟨by decide,
   (Zino.switch_to_user_group_ops_before_setuid
      { Zino.noGroupsEnv with getgrall := [⟨4, ["joe"]⟩] } "joe" ⟨1000, 1000⟩
      (by decide) (by decide)).1⟩

/-- Claim C5: when the username does not resolve to a known user,
`switch_to_user` returns `false` and attempts zero identity-changing
syscalls, leaving uid, gid and supplementary groups unchanged. -/
theorem Zino.switch_to_user_unknown_user (env : Zino.OSEnv) (username : String)
    (h : env.pwdb username = none) :
    Zino.switch_to_user env username = (false, []) := by
  unfold Zino.switch_to_user
  rw [h]

/-- Witness for C5: `nosuchuser` is unknown in the concrete environment, and
the call returns `false` with an empty syscall trace. -/
theorem Zino.switch_to_user_unknown_user_witness :
    Zino.noGroupsEnv.pwdb "nosuchuser" = none
  ∧ Zino.switch_to_user Zino.noGroupsEnv "nosuchuser" = (false, []) :=
  ⟨by decide,
   Zino.switch_to_user_unknown_user Zino.noGroupsEnv "nosuchuser" (by decide)⟩

/-- Claim C4 counterexample: when no explicit `--config-file` argument was
given (`config_file = none`) and reading the default config file raises
`OSError` (file missing/unreadable), `load_config` does not exit with code 1:
it returns `None` and the process continues.  This is documented behaviour
(`load_config`'s docstring), so the claim that this case is fatal is false. -/
theorem Zino.load_config_default_missing_not_fatal :
    Zino.load_config none Zino.ReadResult.osError = Zino.LoadOutcome.returned none
  ∧ Zino.load_config none Zino.ReadResult.osError ≠ Zino.LoadOutcome.exited 1 := by
  exact ⟨rfl, by decide⟩

/-- Claim C4 (amended): invalid TOML and schema-validation failures are
always fatal (exit code 1), and a missing/unreadable config file is fatal
exactly when an explicit `--config-file` argument was given; when no explicit
argument was given and the default config file cannot be read, `load_config`
returns `None` without exiting. -/
theorem Zino.load_config_fatal_on_invalid (config_file : Option String) (path : String) :
    Zino.load_config config_file Zino.ReadResult.invalidConfigurationError
      = Zino.LoadOutcome.exited 1
  ∧ Zino.load_config config_file Zino.ReadResult.validationError
      = Zino.LoadOutcome.exited 1
  ∧ Zino.load_config (some path) Zino.ReadResult.osError = Zino.LoadOutcome.exited 1
  ∧ Zino.load_config none Zino.ReadResult.osError = Zino.LoadOutcome.returned none := by
  exact ⟨rfl, rfl, rfl, rfl⟩

/-- Cache hit: when the calling thread already has an engine stored,
`_get_engine` returns it and leaves the state unchanged. -/
theorem Zino.get_engine_hit (thread : Nat) (s : Zino.ThreadLocalEngines) (e : Nat)
    (h : s.snmp_engine thread = some e) :
    Zino._get_engine thread s = (e, s) := by
  unfold Zino._get_engine
  rw [h]

/-- Cache miss: when the calling thread has no engine stored, `_get_engine`
allocates the next fresh engine, stores it in the calling thread's slot and
bumps the allocation counter. -/
theorem Zino.get_engine_miss (thread : Nat) (s : Zino.ThreadLocalEngines)
    (h : s.snmp_engine thread = none) :
    Zino._get_engine thread s
      = (s.nextEngine,
         { snmp_engine := fun t => if t = thread then some s.nextEngine else s.snmp_engine t,
           nextEngine := s.nextEngine + 1 }) := by
  unfold Zino._get_engine
  rw [h]

/-- Claim C6: on a well-formed engine cache, calling `_get_engine` a second
time from the same thread returns the same handle and constructs nothing
(the state, counter included, is unchanged); calls from two distinct threads
return distinct handles; and well-formedness (no handle shared between
threads) is preserved. -/
theorem Zino.get_engine_cache_spec (s : Zino.ThreadLocalEngines) (t t₁ t₂ : Nat)
    (hwf : Zino.EngineCacheWF s) :
    Zino._get_engine t (Zino._get_engine t s).2 = Zino._get_engine t s
  ∧ (t₁ ≠ t₂ →
      (Zino._get_engine t₂ (Zino._get_engine t₁ s).2).1 ≠ (Zino._get_engine t₁ s).1)
  ∧ Zino.EngineCacheWF (Zino._get_engine t s).2 := by
  obtain ⟨hfresh, hinj⟩ := hwf
  refine ⟨?_, ?_, ?_⟩
  · cases h : s.snmp_engine t with
    | some e =>
      rw [Zino.get_engine_hit t s e h]
      exact Zino.get_engine_hit t s e h
    | none =>
      rw [Zino.get_engine_miss t s h]
      exact Zino.get_engine_hit t _ s.nextEngine (by simp)
  · intro hne
    have hne' : ¬ t₂ = t₁ := fun hh => hne hh.symm
    cases h1 : s.snmp_engine t₁ with
    | some e1 =>
      rw [Zino.get_engine_hit t₁ s e1 h1]
      dsimp only
      cases h2 : s.snmp_engine t₂ with
      | some e2 =>
        rw [Zino.get_engine_hit t₂ s e2 h2]
        dsimp only
        intro heq
        rw [heq] at h2
        exact hne (hinj t₁ t₂ e1 h1 h2)
      | none =>
        rw [Zino.get_engine_miss t₂ s h2]
        dsimp only
        have := hfresh t₁ e1 h1
        omega
    | none =>
      rw [Zino.get_engine_miss t₁ s h1]
      dsimp only
      cases h2 : s.snmp_engine t₂ with
      | some e2 =>
        have h2' : ({ snmp_engine := fun u => if u = t₁ then some s.nextEngine else s.snmp_engine u, nextEngine := s.nextEngine + 1 } : Zino.ThreadLocalEngines).snmp_engine t₂ = some e2 := by
          dsimp only
          rw [if_neg hne']
          exact h2
        rw [Zino.get_engine_hit t₂ _ e2 h2']
        dsimp only
        have := hfresh t₂ e2 h2
        omega
      | none =>
        have h2' : ({ snmp_engine := fun u => if u = t₁ then some s.nextEngine else s.snmp_engine u, nextEngine := s.nextEngine + 1 } : Zino.ThreadLocalEngines).snmp_engine t₂ = none := by
          dsimp only
          rw [if_neg hne']
          exact h2
        rw [Zino.get_engine_miss t₂ _ h2']
        dsimp only
        omega
  · cases h : s.snmp_engine t with
    | some e =>
      rw [Zino.get_engine_hit t s e h]
      exact ⟨hfresh, hinj⟩
    | none =>
      rw [Zino.get_engine_miss t s h]
      dsimp only
      unfold Zino.EngineCacheWF
      constructor
      · intro t' e' he'
        dsimp only at he' ⊢
        by_cases ht : t' = t
        · rw [if_pos ht] at he'
          have := Option.some.inj he'
          omega
        · rw [if_neg ht] at he'
          have := hfresh t' e' he'
          omega
      · intro u₁ u₂ e' h₁ h₂
        dsimp only at h₁ h₂
        by_cases hu1 : u₁ = t <;> by_cases hu2 : u₂ = t
        · rw [hu1, hu2]
        · rw [if_pos hu1] at h₁
          rw [if_neg hu2] at h₂
          have := Option.some.inj h₁
          have := hfresh u₂ e' h₂
          omega
        · rw [if_neg hu1] at h₁
          rw [if_pos hu2] at h₂
          have := Option.some.inj h₂
          have := hfresh u₁ e' h₁
          omega
        · rw [if_neg hu1] at h₁
          rw [if_neg hu2] at h₂
          exact hinj u₁ u₂ e' h₁ h₂

/-- Witness for C6: starting from the empty cache, threads 0 and 1 receive
distinct engine handles. -/
theorem Zino.get_engine_cache_spec_witness :
    (Zino._get_engine 1 (Zino._get_engine 0 Zino.emptyEngines).2).1
      ≠ (Zino._get_engine 0 Zino.emptyEngines).1 :=
  (Zino.get_engine_cache_spec Zino.emptyEngines 0 0 1
      ⟨fun _ _ h => Option.noConfusion h,
       fun _ _ _ h => Option.noConfusion h⟩).2.1 (by decide)

/-- Claim C7: `SNMP.mp_model` returns the extended high-capacity variant
(mpModel 1, SNMPv2c) exactly when the device's `hcounters` flag is set and
the legacy variant (mpModel 0, SNMPv1) exactly when it is not, and it is a
function of that single flag alone: two devices agreeing on `hcounters` get
the same version, whatever their other fields. -/
theorem Zino.SNMP.mp_model_spec (d d' : Zino.PollDevice) :
    (Zino.SNMP.mp_model d = 1 ↔ d.hcounters = true)
  ∧ (Zino.SNMP.mp_model d = 0 ↔ d.hcounters = false)
  ∧ (d.hcounters = d'.hcounters → Zino.SNMP.mp_model d = Zino.SNMP.mp_model d') := by
  refine ⟨?_, ?_, fun h => ?_⟩
  · cases h : d.hcounters <;> simp [Zino.SNMP.mp_model, h]
  · cases h : d.hcounters <;> simp [Zino.SNMP.mp_model, h]
  · unfold Zino.SNMP.mp_model
    rw [h]

/-- Witness for C7 at concrete devices: a device with `hcounters` set maps
to 1 and one without maps to 0. -/
theorem Zino.SNMP.mp_model_spec_witness :
    Zino.SNMP.mp_model ⟨"10.0.0.1", 161, "public", true⟩ = 1
  ∧ Zino.SNMP.mp_model ⟨"10.0.0.1", 161, "public", false⟩ = 0 :=
  ⟨(Zino.SNMP.mp_model_spec ⟨"10.0.0.1", 161, "public", true⟩
      ⟨"10.0.0.1", 161, "public", true⟩).1.mpr rfl,
   (Zino.SNMP.mp_model_spec ⟨"10.0.0.1", 161, "public", false⟩
      ⟨"10.0.0.1", 161, "public", false⟩).2.1.mpr rfl⟩

/-- Claim C8 counterexample: a response with no transport error, a nonzero
error status 5 and error index 2 — out of range for the singleton submitted
object list — makes `SNMP.get` raise an uncaught `IndexError` from
`query[int(error_index) - 1]` instead of returning no value, so the claim
that every error-status response yields an absent value is false. -/
theorem Zino.SNMP.get_error_index_out_of_range_counterexample :
    Zino.SNMP.get 42 ⟨none, 5, 2, []⟩ = Except.error () := by
  rfl

/-- Claim C8 (amended): for a response with no transport error indication
and a nonzero error status whose error index does not exceed the length of
the (singleton) submitted object list, `SNMP.get` returns no value and logs
the error status attributed to the object at the reported 1-based index, or
to the unknown placeholder when the index is zero; an error index beyond the
list length instead raises an uncaught `IndexError`. -/
theorem Zino.SNMP.get_error_status_attribution (object : Nat) (r : Zino.GetCmdResponse)
    (hind : r.error_indication = none) (hstat : r.error_status ≠ 0) :
    (r.error_index = 0 →
      Zino.SNMP.get object r
        = Except.ok (none, some (Zino.GetLog.statusAt r.error_status none)))
  ∧ (r.error_index = 1 →
      Zino.SNMP.get object r
        = Except.ok (none, some (Zino.GetLog.statusAt r.error_status (some object))))
  ∧ (2 ≤ r.error_index → Zino.SNMP.get object r = Except.error ()) := by
  refine ⟨fun h0 => ?_, fun h1 => ?_, fun h2 => ?_⟩
  · unfold Zino.SNMP.get
    rw [hind]
    simp [hstat, h0]
  · unfold Zino.SNMP.get
    rw [hind]
    simp [hstat, h1]
  · have hne0 : r.error_index ≠ 0 := by omega
    unfold Zino.SNMP.get
    rw [hind]
    simp [hstat, hne0]
    omega

/-- Witness for the amended claim C8: a response with error status 5 and
error index 1 yields no value with the error attributed to the single
submitted object, and the same response with error index 0 yields no value
with the unknown placeholder. -/
theorem Zino.SNMP.get_error_status_attribution_witness :
    Zino.SNMP.get 42 ⟨none, 5, 1, []⟩
      = Except.ok (none, some (Zino.GetLog.statusAt 5 (some 42)))
  ∧ Zino.SNMP.get 42 ⟨none, 5, 0, []⟩
      = Except.ok (none, some (Zino.GetLog.statusAt 5 none)) :=
  ⟨(Zino.SNMP.get_error_status_attribution 42 ⟨none, 5, 1, []⟩ rfl (by decide)).2.1 rfl,
   (Zino.SNMP.get_error_status_attribution 42 ⟨none, 5, 0, []⟩ rfl (by decide)).1 rfl⟩

/-- Claim C10: when the exchange reports neither a transport error
indication nor a protocol error status but the response carries zero
variable bindings, `SNMP.get` falls through the empty loop and returns
`None` without raising and without logging, exactly as the caller would
observe in the two failure outcomes. -/
theorem Zino.SNMP.get_empty_varbinds (object : Nat) (r : Zino.GetCmdResponse)
    (hind : r.error_indication = none) (hstat : r.error_status = 0)
    (hvb : r.var_binds = []) :
    Zino.SNMP.get object r = Except.ok (none, none) := by
  unfold Zino.SNMP.get
  rw [hind]
  simp [hstat, hvb]

/-- Witness for C10: the fully successful empty response yields `None` with
no exception and no diagnostic. -/
theorem Zino.SNMP.get_empty_varbinds_witness :
    Zino.SNMP.get 42 ⟨none, 0, 0, []⟩ = Except.ok (none, none) :=
  Zino.SNMP.get_empty_varbinds 42 ⟨none, 0, 0, []⟩ rfl rfl rfl
